import Mathlib

/-!
Shallow embedding of the playback-orchestration core of the `sgrbot` Discord
bot (Rust, `src/modules/audio_player/`), together with theorems settling the
specification claims about it.

The definitions translate the relevant Rust functions:
* `logic.rs`: `resolve_target_voice_channel_id`, `leave_voice_channel`,
  `create_queue_embed`;
* `events.rs`: the `VoiceStateUpdate` handler, `track_start`, `track_end`;
* `commands.rs`: the session-requiring commands (`leave`, `stop`, `pause`,
  `resume`, `skip`, `queue list`, `queue remove`, `queue clear`) and the
  append-and-advance tail of `play`.

External collaborators (the Discord HTTP client, songbird and the lavalink
server) are modelled at their interface: message posting/deletion is an
action on an abstract set of live message ids, and a fallible external call
is parametrised by a boolean telling whether it succeeds.  A reachable
`unwrap`/`expect` panic (or an unchecked `usize` underflow) is modelled by
an `Option` result being `none`.
-/

namespace Sgrbot

/-! ### Data model (lavalink track descriptors, models.rs) -/

/-- `lavalink_rs::model::track::TrackInfo`, restricted to the fields the
orchestration code reads. The canonical `uri` is optional. -/
structure TrackInfo where
  identifier : String
  title : String
  author : String
  uri : Option String
  isStream : Bool
  length : Nat
deriving Repr, DecidableEq

/-- `TrackUserData` (models.rs): requester metadata stamped onto each track. -/
structure TrackUserData where
  requesterName : String
  requesterAvatarUrl : String
  requestTimestamp : Nat
deriving Repr, DecidableEq

/-- `lavalink_rs::model::track::TrackData`: track info plus opaque user data. -/
structure TrackData where
  info : TrackInfo
  userData : Option TrackUserData
deriving Repr, DecidableEq

/-- `lavalink_rs::prelude::TrackInQueue`, as stored in the per-session queue. -/
structure TrackInQueue where
  track : TrackData
deriving Repr, DecidableEq

/-! ### resolve_target_voice_channel_id (logic.rs 42-57) -/

/-- A guild member's `serenity::all::VoiceState`, restricted to the field the
code reads: the channel the member currently occupies, if any. -/
structure VoiceState where
  channelId : Option Nat
deriving Repr, DecidableEq

/-- `JoinError` (errors.rs), restricted to the variant produced by
`resolve_target_voice_channel_id` itself. -/
inductive JoinError
  | missingTargetVoiceChannel
deriving Repr, DecidableEq

/-- `resolve_target_voice_channel_id` (logic.rs 42-57): a requested channel
wins; otherwise the requester's current voice state is looked up; failing
both, `MissingTargetVoiceChannel`. Channels are identified by their id. -/
def resolveTargetVoiceChannelId (voiceChannel : Option Nat)
    (voiceStates : List (Nat × VoiceState)) (authorId : Nat) :
    Except JoinError Nat :=
  match voiceChannel with
  | some ch => .ok ch
  | none =>
    match (voiceStates.lookup authorId).bind (fun vs => vs.channelId) with
    | some id => .ok id
    | none => .error .missingTargetVoiceChannel

/-! ### leave_voice_channel (logic.rs 92-107) -/

/-- `LeaveError` (errors.rs), restricted to the variants reachable from
`leave_voice_channel`: `NotConnected`, or a propagated lavalink error. -/
inductive LeaveError
  | notConnected
  | lavalink
deriving Repr, DecidableEq

/-- The two external registries `leave_voice_channel` touches: the lavalink
player contexts and the songbird calls (voice transport handles), each a
list of guild ids. -/
structure VoiceBackends where
  lavalinkPlayers : List Nat
  songbirdCalls : List Nat
deriving Repr, DecidableEq

/-- `leave_voice_channel` (logic.rs 92-107).  `deleteOk` tells whether the
lavalink `delete_player` REST call succeeds; on failure the `?` operator
propagates the error before the songbird call is touched.  On success the
player is deleted, then the songbird call is removed when present, else
`NotConnected`. The returned state is the registries after the call. -/
def leaveVoiceChannel (st : VoiceBackends) (guildId : Nat) (deleteOk : Bool) :
    Except LeaveError Unit × VoiceBackends :=
  if deleteOk then
    let st1 : VoiceBackends :=
      { st with lavalinkPlayers := st.lavalinkPlayers.erase guildId }
    if guildId ∈ st1.songbirdCalls then
      (.ok (), { st1 with songbirdCalls := st1.songbirdCalls.erase guildId })
    else
      (.error .notConnected, st1)
  else
    (.error .lavalink, st)

/-! ### VoiceStateUpdate handler (events.rs 20-72) -/

/-- One cached voice state in the affected guild, with the bot flag of the
member it belongs to. The handler never reads `isBot`; the specification
speaks of non-bot members, so the flag is carried to state that claim. -/
structure ChannelMember where
  isBot : Bool
  channelId : Option Nat
deriving Repr, DecidableEq

/-- The externally visible actions of the auto-leave teardown. -/
inductive TeardownAction
  | clearQueue
  | skip
  | sleep (secs : Nat)
  | leave
deriving Repr, DecidableEq

/-- Input of the `VoiceStateUpdate` arm of `handler` (events.rs 32-69):
the channel of the guild's songbird call (`none` when no call or no current
channel), the guild's cached voice states, and whether a lavalink player
context exists / has a playing track. -/
structure VoiceUpdateInput where
  botChannel : Option Nat
  voiceStates : List ChannelMember
  playerExists : Bool
  nowPlaying : Bool
deriving Repr, DecidableEq

/-- Total number of cached voice states pointing at channel `ch`
(the count computed at events.rs 44-51; no bot filtering). -/
def channelOccupancy (inp : VoiceUpdateInput) (ch : Nat) : Nat :=
  (inp.voiceStates.filter (fun vs => vs.channelId == some ch)).length

/-- Number of non-bot members in channel `ch` — the quantity the
specification says the handler counts. -/
def nonBotOccupancy (inp : VoiceUpdateInput) (ch : Nat) : Nat :=
  (inp.voiceStates.filter
    (fun vs => !vs.isBot && vs.channelId == some ch)).length

/-- The `VoiceStateUpdate` arm of `handler` (events.rs 32-69), as the list
of teardown actions it performs: no-op when the bot occupies no channel or
when more than one voice state sits in its channel; otherwise clear + skip +
grace sleep when something is playing, then always `leave`. -/
def voiceStateUpdateHandler (inp : VoiceUpdateInput) : List TeardownAction :=
  match inp.botChannel with
  | none => []
  | some ch =>
    if channelOccupancy inp ch > 1 then
      []
    else
      (if inp.playerExists && inp.nowPlaying then
        [TeardownAction.clearQueue, TeardownAction.skip, TeardownAction.sleep 5]
      else []) ++ [TeardownAction.leave]

/-! ### Now-playing lifecycle (events.rs 88-147) -/

/-- `NowPlayingEmbed` (models.rs via events.rs): the recorded pair of track
identifier and status-message id. -/
structure NowPlayingEmbed where
  trackIdentifier : String
  message : Nat
deriving Repr, DecidableEq

/-- Observable per-session now-playing state: the `now_playing_embed` slot
plus the set of status messages currently live on the platform (delete and
send effects applied in their success model). -/
structure NPState where
  slot : Option NowPlayingEmbed
  live : List Nat
deriving Repr, DecidableEq

/-- Message-level effects a callback performs. -/
inductive NPAction
  | deleteMsg (m : Nat)
  | postMsg (m : Nat)
deriving Repr, DecidableEq

/-- `track_start` (events.rs 88-121): take the slot; if it held a prior
embed, delete its message (best-effort) first; then post the new message and,
when the send succeeds, record the new (identifier, message) pair. `sendOk`
tells whether the send succeeds; on failure the slot stays empty. Returns
the new state and the emitted actions in order. -/
def trackStart (st : NPState) (trackId : String) (newMsg : Nat)
    (sendOk : Bool) : NPState × List NPAction :=
  let live1 : List Nat :=
    match st.slot with
    | some e => st.live.erase e.message
    | none => st.live
  let deleteActs : List NPAction :=
    match st.slot with
    | some e => [NPAction.deleteMsg e.message]
    | none => []
  if sendOk then
    ({ slot := some ⟨trackId, newMsg⟩, live := live1 ++ [newMsg] },
      deleteActs ++ [NPAction.postMsg newMsg])
  else
    ({ slot := none, live := live1 }, deleteActs ++ [NPAction.postMsg newMsg])

/-- `track_end` (events.rs 124-147): when the slot is non-empty and the
callback's track identifier matches the stored one, delete the message and
clear the slot; otherwise do nothing. -/
def trackEnd (st : NPState) (trackId : String) : NPState × List NPAction :=
  match st.slot with
  | some e =>
    if e.trackIdentifier = trackId then
      ({ slot := none, live := st.live.erase e.message },
        [NPAction.deleteMsg e.message])
    else
      (st, [])
  | none => (st, [])

/-- One callback delivered to a session. -/
inductive NPEvent
  | start (trackId : String) (msg : Nat) (sendOk : Bool)
  | finish (trackId : String)
deriving Repr, DecidableEq

/-- State transition of one callback. -/
def npStep (st : NPState) : NPEvent → NPState
  | .start t m ok => (trackStart st t m ok).1
  | .finish t => (trackEnd st t).1

/-- Run a sequence of callbacks. -/
def npRun (st : NPState) : List NPEvent → NPState
  | [] => st
  | e :: es => npRun (npStep st e) es

/-- Well-formedness: the live messages are exactly the slot's message. -/
def NPWF (st : NPState) : Prop :=
  st.live = (st.slot.map NowPlayingEmbed.message).toList

/-! ### Per-session player state and commands (commands.rs) -/

/-- The per-guild lavalink player context as the commands observe it:
its queue, the currently playing track, and the pause flag. -/
structure PlayerCtx where
  queue : List TrackInQueue
  playing : Option TrackData
  paused : Bool
deriving Repr, DecidableEq

/-- Effect of a `skip` signal on an idle-or-playing player: the current
track ends and the queue head (if any) becomes the playing track. -/
def advance (p : PlayerCtx) : PlayerCtx :=
  match p.queue with
  | [] => { p with playing := none }
  | t :: rest => { queue := rest, playing := some t.track, paused := p.paused }

/-- The append-and-advance tail of `play` (commands.rs 256-281): append the
resolved tracks to the queue, then signal `skip` if and only if no track is
playing and the queue now has a head. Returns the updated player and whether
the advance signal was sent. -/
def playAppend (st : PlayerCtx) (tracks : List TrackInQueue) :
    PlayerCtx × Bool :=
  let q := st.queue ++ tracks
  let adv := st.playing.isNone && q.head?.isSome
  ({ st with queue := q }, adv)

/-- User-facing replies of the session commands. -/
inductive Reply
  | notConnected
  | nothingPlaying
  | disconnected
  | stoppedPlayback
  | pausedPlayback
  | resumedPlayback
  | clearedQueue
  | invalidTrackNumber
  | message (text : String)
deriving Repr, DecidableEq

/-- Reply text of `skip` (commands.rs 402-406): `now_playing.info.uri` is
unwrapped, so a track without a canonical URI panics — modelled as `none`. -/
def skipReply (t : TrackData) : Option String :=
  t.info.uri.map (fun uri =>
    "Skipped [" ++ t.info.title ++ "](" ++ uri ++ ").")

/-- Reply text of `queue remove` (commands.rs 549-553): the removed track's
`uri` is unwrapped — `none` models the panic. -/
def removeReply (info : TrackInfo) : Option String :=
  info.uri.map (fun uri =>
    "Removed [" ++ info.title ++ "](" ++ uri ++ ").")

/-- One line of the `queue list` rendering (commands.rs 448-456): the
track's `uri` is unwrapped — `none` models the panic. -/
def formatListLine (index : Nat) (t : TrackInQueue) : Option String :=
  t.track.info.uri.map (fun uri =>
    toString (index + 1) ++ ". [" ++ t.track.info.title ++ "](" ++ uri ++
      ") - " ++ t.track.info.author)

/-- The `queue list` description (commands.rs 438-462): empty-queue text, or
the first `min(count, 9)` entries rendered; `none` models a panic on a track
without a URI. -/
def listDescription (q : List TrackInQueue) : Option String :=
  if q.length = 0 then
    some "Queue is empty."
  else
    let maxIdx := min q.length 9
    ((q.enum.takeWhile (fun p => decide (p.1 < maxIdx))).mapM
      (fun p => formatListLine p.1 p.2)).map (String.intercalate "\n")

/-- Result of the core of `queue remove` (commands.rs 533-547). -/
inductive RemoveResult
  | removed (t : TrackInQueue)
  | invalidTrackNumber
  | panicked
deriving Repr, DecidableEq

/-- Core of `queue remove` (commands.rs 533-547): validate the one-based
`trackNumber` against the count; on success fetch the entry (`unwrap`, whose
panic is modelled by `panicked`) and erase it. Returns the result and the
queue afterwards. -/
def removeTrack (q : List TrackInQueue) (trackNumber : Nat) :
    RemoveResult × List TrackInQueue :=
  if 0 < trackNumber ∧ trackNumber ≤ q.length then
    match q[trackNumber - 1]? with
    | some t => (.removed t, q.eraseIdx (trackNumber - 1))
    | none => (.panicked, q)
  else
    (.invalidTrackNumber, q)

/-- `stop` (commands.rs 286-320): missing session replies "not connected";
with a playing track the queue is cleared and the track skipped (ending
playback, since the queue is empty); otherwise "nothing is playing". -/
def stopCmd (ps : Option PlayerCtx) : Option Reply × Option PlayerCtx :=
  match ps with
  | none => (some .notConnected, none)
  | some p =>
    if p.playing.isSome then
      (some .stoppedPlayback, some { queue := [], playing := none, paused := p.paused })
    else
      (some .nothingPlaying, some p)

/-- `pause` (commands.rs 323-351). -/
def pauseCmd (ps : Option PlayerCtx) : Option Reply × Option PlayerCtx :=
  match ps with
  | none => (some .notConnected, none)
  | some p =>
    if p.playing.isSome then
      (some .pausedPlayback, some { p with paused := true })
    else
      (some .nothingPlaying, some p)

/-- `resume` (commands.rs 354-382). -/
def resumeCmd (ps : Option PlayerCtx) : Option Reply × Option PlayerCtx :=
  match ps with
  | none => (some .notConnected, none)
  | some p =>
    if p.playing.isSome then
      (some .resumedPlayback, some { p with paused := false })
    else
      (some .nothingPlaying, some p)

/-- `skip` (commands.rs 385-416): with a playing track, signal skip and
render the reply (whose URI unwrap may panic, `none`). -/
def skipCmd (ps : Option PlayerCtx) : Option Reply × Option PlayerCtx :=
  match ps with
  | none => (some .notConnected, none)
  | some p =>
    match p.playing with
    | some t => ((skipReply t).map Reply.message, some (advance p))
    | none => (some .nothingPlaying, some p)

/-- `queue list` (commands.rs 424-467). -/
def listCmd (ps : Option PlayerCtx) : Option Reply × Option PlayerCtx :=
  match ps with
  | none => (some .notConnected, none)
  | some p => ((listDescription p.queue).map Reply.message, some p)

/-- `queue remove` (commands.rs 516-558). -/
def removeCmd (ps : Option PlayerCtx) (trackNumber : Nat) :
    Option Reply × Option PlayerCtx :=
  match ps with
  | none => (some .notConnected, none)
  | some p =>
    match removeTrack p.queue trackNumber with
    | (.removed t, q1) =>
      ((removeReply t.track.info).map Reply.message, some { p with queue := q1 })
    | (.invalidTrackNumber, _) => (some .invalidTrackNumber, some p)
    | (.panicked, _) => (none, some p)

/-- `queue clear` (commands.rs 561-582). -/
def clearCmd (ps : Option PlayerCtx) : Option Reply × Option PlayerCtx :=
  match ps with
  | none => (some .notConnected, none)
  | some p => (some .clearedQueue, some { p with queue := [] })

/-- The `leave` command's error handling (commands.rs 106-119): a
`NotConnected` result of `leave_voice_channel` becomes a direct user-facing
reply; any other error propagates (`none` reply). -/
def leaveCmd (st : VoiceBackends) (guildId : Nat) (deleteOk : Bool) :
    Option Reply × VoiceBackends :=
  match leaveVoiceChannel st guildId deleteOk with
  | (.ok _, st1) => (some .disconnected, st1)
  | (.error .notConnected, st1) => (some .notConnected, st1)
  | (.error _, st1) => (none, st1)

/-! ### create_queue_embed (logic.rs 210-267) -/

/-- Page size of `create_queue_embed`. -/
def tracksPerPage : Nat := 10

/-- The rendered queue embed: description plus the footer's page numbers. -/
structure QueueEmbed where
  description : String
  footerPage : Nat
  footerTotalPages : Nat
deriving Repr, DecidableEq

/-- One line of the `create_queue_embed` rendering (logic.rs 235-252);
unlike the `queue list` command, a missing URI is handled gracefully. -/
def formatQueueEmbedLine (index : Nat) (t : TrackInQueue) : String :=
  match t.track.info.uri with
  | some uri =>
    toString (index + 1) ++ ". [" ++ t.track.info.title ++ "](" ++ uri ++
      ") - " ++ t.track.info.author
  | none =>
    toString (index + 1) ++ ". **" ++ t.track.info.title ++ "** - " ++
      t.track.info.author

/-- `create_queue_embed` (logic.rs 210-267). `total_pages` is
`count.div_ceil(10)`; a requested page at or past it is clamped to
`total_pages - 1` — a `usize` subtraction that underflows when
`total_pages = 0` (empty queue), which panics in a debug build before the
function's own "Queue is empty." branch is reached; the underflow is
modelled as `none`. -/
def createQueueEmbed (queue : List TrackInQueue) (page : Nat) :
    Option QueueEmbed :=
  let trackCount := queue.length
  let totalPages := (trackCount + tracksPerPage - 1) / tracksPerPage
  if 0 < totalPages then
    let page1 := if page < totalPages then page else totalPages - 1
    let start := page1 * tracksPerPage
    let stop := min (start + tracksPerPage) trackCount
    let description :=
      if trackCount = 0 then
        "Queue is empty."
      else
        String.intercalate "\n"
          ((queue.enum.filter
              (fun p => decide (start ≤ p.1 ∧ p.1 < stop))).map
            (fun p => formatQueueEmbedLine p.1 p.2))
    some ⟨description, page1 + 1, totalPages⟩
  else
    none

/-! ### Theorems -/

/-- C9: `join`'s target voice channel resolution follows the order:
requested channel first, then the requester's voice state; it fails with
`MissingTargetVoiceChannel` exactly when neither exists. -/
theorem resolve_target_voice_channel_order :
    ∀ (vc : Option Nat) (vss : List (Nat × VoiceState)) (a : Nat),
      (∀ c, vc = some c → resolveTargetVoiceChannelId vc vss a = .ok c)
      ∧ (vc = none → ∀ cid,
          (vss.lookup a).bind (fun vs => vs.channelId) = some cid →
          resolveTargetVoiceChannelId vc vss a = .ok cid)
      ∧ (resolveTargetVoiceChannelId vc vss a =
            .error .missingTargetVoiceChannel ↔
          vc = none ∧ (vss.lookup a).bind (fun vs => vs.channelId) = none) := by
  intro vc vss a
  refine ⟨?_, ?_, ?_⟩
  · intro c hc
    subst hc
    rfl
  · intro hn cid hcid
    subst hn
    simp [resolveTargetVoiceChannelId, hcid]
  · cases vc with
    | some c => simp [resolveTargetVoiceChannelId]
    | none =>
      cases h : (vss.lookup a).bind (fun vs => vs.channelId) with
      | some cid => simp [resolveTargetVoiceChannelId, h]
      | none => simp [resolveTargetVoiceChannelId, h]

/-- Witness for C9 at concrete inputs: a requested channel is returned
as-is, and without one the requester's voice state is used. -/
theorem resolve_target_voice_channel_order_witness :
    resolveTargetVoiceChannelId (some 5) [] 0 = .ok 5
    ∧ resolveTargetVoiceChannelId none [(1, ⟨some 3⟩)] 1 = .ok 3 :=
  ⟨(resolve_target_voice_channel_order (some 5) [] 0).1 5 rfl,
    (resolve_target_voice_channel_order none [(1, ⟨some 3⟩)] 1).2.1 rfl 3 rfl⟩

/-- C1 counterexample: with guild 7 holding both a lavalink player and a
songbird call, a failing `delete_player` makes `leave_voice_channel` return
the lavalink error with the voice transport handle still registered — the
`?` on `delete_player` propagates before `manager.remove` runs. -/
theorem leave_keeps_transport_on_lavalink_failure :
    (leaveVoiceChannel ⟨[7], [7]⟩ 7 false).1 = .error .lavalink
    ∧ 7 ∈ (leaveVoiceChannel ⟨[7], [7]⟩ 7 false).2.songbirdCalls :=
  ⟨rfl, by decide⟩

/-- C1 amended: `leave_voice_channel` removes the voice transport handle
when the audio-server teardown succeeds; when `delete_player` fails the
error propagates first and the registries are left untouched, transport
handle included. -/
theorem leave_removes_transport_iff_delete_ok :
    ∀ (st : VoiceBackends) (g : Nat), g ∈ st.songbirdCalls →
      ((leaveVoiceChannel st g true).1 = .ok ()
        ∧ (leaveVoiceChannel st g true).2.songbirdCalls =
            st.songbirdCalls.erase g)
      ∧ leaveVoiceChannel st g false = (.error .lavalink, st) := by
  intro st g hg
  refine ⟨?_, rfl⟩
  simp [leaveVoiceChannel, hg]

/-- Witness for C1's amended theorem at guild 7. -/
theorem leave_removes_transport_iff_delete_ok_witness :
    (leaveVoiceChannel ⟨[7], [7]⟩ 7 true).1 = .ok ()
    ∧ (leaveVoiceChannel ⟨[7], [7]⟩ 7 true).2.songbirdCalls = [] :=
  ⟨(leave_removes_transport_iff_delete_ok ⟨[7], [7]⟩ 7 (by decide)).1.1,
    (leave_removes_transport_iff_delete_ok ⟨[7], [7]⟩ 7 (by decide)).1.2⟩

/-- C2 counterexample: in a channel occupied only by bots (the bot itself
and one other bot), the non-bot member count is zero, yet the handler does
nothing — it counts every voice state in the channel without filtering out
bots, sees 2 > 1 and returns. -/
theorem autoleave_ignores_bot_only_channel :
    nonBotOccupancy ⟨some 1, [⟨true, some 1⟩, ⟨true, some 1⟩], true, true⟩ 1 = 0
    ∧ TeardownAction.leave ∉
        voiceStateUpdateHandler
          ⟨some 1, [⟨true, some 1⟩, ⟨true, some 1⟩], true, true⟩ := by
  decide

/-- C2 amended: the handler is a no-op when the bot occupies no voice
channel; otherwise it counts every cached voice state in the bot's channel
(bots included, the bot's own among them) and is a no-op when that total
exceeds one; when the total is at most one it clears the queue, signals stop
and sleeps the grace period exactly when something is playing, and always
invokes `leave`. -/
theorem autoleave_on_total_occupancy_at_most_one :
    ∀ inp : VoiceUpdateInput,
      (inp.botChannel = none → voiceStateUpdateHandler inp = [])
      ∧ ∀ ch, inp.botChannel = some ch →
          (channelOccupancy inp ch > 1 → voiceStateUpdateHandler inp = [])
          ∧ (channelOccupancy inp ch ≤ 1 →
              voiceStateUpdateHandler inp =
                (if inp.playerExists && inp.nowPlaying then
                  [TeardownAction.clearQueue, TeardownAction.skip,
                    TeardownAction.sleep 5]
                else []) ++ [TeardownAction.leave]) := by
  intro inp
  constructor
  · intro h
    simp [voiceStateUpdateHandler, h]
  · intro ch hch
    constructor
    · intro hgt
      simp [voiceStateUpdateHandler, hch, if_pos hgt]
    · intro hle
      have hngt : ¬ channelOccupancy inp ch > 1 := by omega
      simp [voiceStateUpdateHandler, hch, if_neg hngt]

/-- Witness for C2's amended theorem: a channel holding only the bot's own
voice state (total occupancy 1, something playing) triggers the full
teardown sequence. -/
theorem autoleave_on_total_occupancy_at_most_one_witness :
    voiceStateUpdateHandler ⟨some 1, [⟨true, some 1⟩], true, true⟩ =
      [TeardownAction.clearQueue, TeardownAction.skip, TeardownAction.sleep 5,
        TeardownAction.leave] := by
  have h :=
    ((autoleave_on_total_occupancy_at_most_one
        ⟨some 1, [⟨true, some 1⟩], true, true⟩).2 1 rfl).2 (by decide)
  simpa using h

/-- A single callback preserves the now-playing well-formedness: the live
messages are always exactly the slot's recorded message. -/
theorem npStep_preserves_wf (st : NPState) (e : NPEvent) (h : NPWF st) :
    NPWF (npStep st e) := by
  unfold NPWF at h ⊢
  cases e with
  | start t m ok =>
    cases hs : st.slot with
    | none =>
      simp [hs] at h
      cases ok <;> simp [npStep, trackStart, hs, h]
    | some em =>
      simp [hs] at h
      cases ok <;> simp [npStep, trackStart, hs, h]
  | finish t =>
    cases hs : st.slot with
    | none => simp [npStep, trackEnd, hs, h]
    | some em =>
      simp [hs] at h
      by_cases ht : em.trackIdentifier = t
      · simp [npStep, trackEnd, hs, ht, h]
      · simp [npStep, trackEnd, hs, ht, h]

/-- Any callback sequence preserves the now-playing well-formedness. -/
theorem npRun_preserves_wf (events : List NPEvent) (st : NPState)
    (h : NPWF st) : NPWF (npRun st events) := by
  induction events generalizing st with
  | nil => exact h
  | cons e es ih => exact ih _ (npStep_preserves_wf st e h)

/-- C3: over every callback sequence from the initial session state, at most
one status message is live at any instant; and a track-start callback whose
slot holds a prior embed emits the deletion of the prior message before the
post of the new one, recording the new pair when the send succeeds. -/
theorem now_playing_exclusivity :
    (∀ events : List NPEvent,
      ((npRun ⟨none, []⟩ events).live).length ≤ 1)
    ∧ (∀ (st : NPState) (tid : String) (m : Nat) (ok : Bool)
        (e : NowPlayingEmbed), st.slot = some e →
          (trackStart st tid m ok).2 =
            [NPAction.deleteMsg e.message, NPAction.postMsg m]
          ∧ (ok = true →
              (trackStart st tid m ok).1.slot = some ⟨tid, m⟩)) := by
  constructor
  · intro events
    have hwf : NPWF (npRun ⟨none, []⟩ events) :=
      npRun_preserves_wf events ⟨none, []⟩ rfl
    unfold NPWF at hwf
    rw [hwf]
    cases (npRun ⟨none, []⟩ events).slot <;> simp
  · intro st tid m ok e hs
    cases ok <;> simp [trackStart, hs]

/-- Witness for C3: two consecutive successful track-start callbacks leave
one live message, and a concrete track-start with a prior embed emits
delete-then-post. -/
theorem now_playing_exclusivity_witness :
    ((npRun ⟨none, []⟩
        [NPEvent.start "a" 1 true, NPEvent.start "b" 2 true]).live).length ≤ 1
    ∧ (trackStart ⟨some ⟨"a", 1⟩, [1]⟩ "b" 2 true).2 =
        [NPAction.deleteMsg 1, NPAction.postMsg 2] :=
  ⟨now_playing_exclusivity.1 _,
    (now_playing_exclusivity.2 ⟨some ⟨"a", 1⟩, [1]⟩ "b" 2 true ⟨"a", 1⟩ rfl).1⟩

/-- C4: a track-end callback deletes the stored message and empties the slot
exactly when its identifier matches the stored one; a mismatched or empty
slot makes it a no-op, leaving state and messages untouched. -/
theorem track_end_clears_only_matching :
    ∀ (st : NPState) (tid : String),
      (∀ e, st.slot = some e → e.trackIdentifier = tid →
        trackEnd st tid =
          ({ slot := none, live := st.live.erase e.message },
            [NPAction.deleteMsg e.message]))
      ∧ (∀ e, st.slot = some e → e.trackIdentifier ≠ tid →
          trackEnd st tid = (st, []))
      ∧ (st.slot = none → trackEnd st tid = (st, [])) := by
  intro st tid
  refine ⟨?_, ?_, ?_⟩
  · intro e hs ht
    simp [trackEnd, hs, ht]
  · intro e hs ht
    simp [trackEnd, hs, ht]
  · intro hs
    simp [trackEnd, hs]

/-- Witness for C4: a matching track-end deletes and clears; a stale one is
a no-op. -/
theorem track_end_clears_only_matching_witness :
    trackEnd ⟨some ⟨"a", 1⟩, [1]⟩ "a" =
      ({ slot := none, live := ([1] : List Nat).erase 1 },
        [NPAction.deleteMsg 1])
    ∧ trackEnd ⟨some ⟨"a", 1⟩, [1]⟩ "b" = (⟨some ⟨"a", 1⟩, [1]⟩, []) :=
  ⟨(track_end_clears_only_matching ⟨some ⟨"a", 1⟩, [1]⟩ "a").1 ⟨"a", 1⟩ rfl rfl,
    (track_end_clears_only_matching ⟨some ⟨"a", 1⟩, [1]⟩ "b").2.1 ⟨"a", 1⟩ rfl
      (by decide)⟩

/-- C5: after `play` appends its resolved (nonempty) tracks, the advance
signal is sent if and only if nothing was playing; and two consecutive play
calls from the idle state make the first start playback and the second only
append, with no second advance. -/
theorem play_advances_iff_idle :
    (∀ (st : PlayerCtx) (ts : List TrackInQueue), ts ≠ [] →
      (playAppend st ts).2 = st.playing.isNone
      ∧ (playAppend st ts).1.queue = st.queue ++ ts
      ∧ (playAppend st ts).1.playing = st.playing)
    ∧ (∀ t1 t2 : TrackInQueue,
        (playAppend ⟨[], none, false⟩ [t1]).2 = true
        ∧ (advance (playAppend ⟨[], none, false⟩ [t1]).1).playing =
            some t1.track
        ∧ (playAppend (advance (playAppend ⟨[], none, false⟩ [t1]).1) [t2]).2 =
            false
        ∧ (playAppend
            (advance (playAppend ⟨[], none, false⟩ [t1]).1) [t2]).1.queue =
            [t2]) := by
  constructor
  · intro st ts hts
    have hq : st.queue ++ ts ≠ [] := by
      intro hcontra
      exact hts (List.append_eq_nil.mp hcontra).2
    have hhead : (st.queue ++ ts).head?.isSome = true := by
      cases h : st.queue ++ ts with
      | nil => exact absurd h hq
      | cons a l => simp
    refine ⟨?_, rfl, rfl⟩
    simp only [playAppend, hhead, Bool.and_true]
  · intro t1 t2
    refine ⟨rfl, rfl, rfl, rfl⟩

/-- Witness for C5: appending one track to an idle player advances; to a
playing player it does not. -/
theorem play_advances_iff_idle_witness :
    (playAppend ⟨[], none, false⟩ [⟨⟨⟨"i", "t", "a", none, false, 0⟩, none⟩⟩]).2 =
      (none : Option TrackData).isNone :=
  (play_advances_iff_idle.1 ⟨[], none, false⟩
      [⟨⟨⟨"i", "t", "a", none, false, 0⟩, none⟩⟩] (by decide)).1

/-- C6: `queue remove` with a one-based index outside `[1, count]` fails
with the out-of-range error and leaves the queue unchanged; a valid index
removes and returns exactly the entry at that position, later entries shift
down by one, and the `unwrap` inside the success path never panics. -/
theorem remove_validates_one_based_index :
    ∀ (q : List TrackInQueue) (n : Nat),
      ((removeTrack q n).1 = RemoveResult.invalidTrackNumber ↔
        ¬(1 ≤ n ∧ n ≤ q.length))
      ∧ ((removeTrack q n).1 = RemoveResult.invalidTrackNumber →
          (removeTrack q n).2 = q)
      ∧ (removeTrack q n).1 ≠ RemoveResult.panicked
      ∧ (1 ≤ n ∧ n ≤ q.length →
          ∃ t, q[n - 1]? = some t
            ∧ removeTrack q n = (RemoveResult.removed t, q.eraseIdx (n - 1))
            ∧ (∀ j, j < n - 1 → (q.eraseIdx (n - 1))[j]? = q[j]?)
            ∧ (∀ j, n - 1 ≤ j → (q.eraseIdx (n - 1))[j]? = q[j + 1]?)) := by
  intro q n
  by_cases hv : 0 < n ∧ n ≤ q.length
  · have hlt : n - 1 < q.length := by omega
    obtain ⟨t, ht⟩ : ∃ t, q[n - 1]? = some t := by
      have := List.getElem?_eq_getElem hlt
      exact ⟨q[n - 1], this⟩
    refine ⟨?_, ?_, ?_, ?_⟩
    · simp [removeTrack, hv, ht]
      omega
    · intro hcontra
      exfalso
      have : (removeTrack q n).1 = RemoveResult.removed t := by
        simp [removeTrack, hv, ht]
      rw [this] at hcontra
      exact RemoveResult.noConfusion hcontra
    · have : (removeTrack q n).1 = RemoveResult.removed t := by
        simp [removeTrack, hv, ht]
      rw [this]
      intro hcontra
      exact RemoveResult.noConfusion hcontra
    · intro _
      refine ⟨t, ht, ?_, ?_, ?_⟩
      · simp [removeTrack, hv, ht]
      · intro j hj
        exact List.getElem?_eraseIdx_of_lt q (n - 1) j hj
      · intro j hj
        exact List.getElem?_eraseIdx_of_ge q (n - 1) j hj
  · refine ⟨?_, ?_, ?_, ?_⟩
    · simp [removeTrack, hv]
      omega
    · intro _
      simp [removeTrack, hv]
    · simp [removeTrack, hv]
    · intro hcontra
      exact absurd (by omega : 0 < n ∧ n ≤ q.length) hv

/-- Witness for C6, spec scenario B: from a three-track queue, removing
track number 2 returns the middle entry and excises it; removing track
number 5 fails with the out-of-range error and leaves the queue unchanged. -/
theorem remove_validates_one_based_index_witness :
    (removeTrack [⟨⟨⟨"a", "A", "x", none, false, 0⟩, none⟩⟩,
        ⟨⟨⟨"b", "B", "x", none, false, 0⟩, none⟩⟩,
        ⟨⟨⟨"c", "C", "x", none, false, 0⟩, none⟩⟩] 5).1 =
      RemoveResult.invalidTrackNumber
    ∧ ∃ t, ([⟨⟨⟨"a", "A", "x", none, false, 0⟩, none⟩⟩,
        ⟨⟨⟨"b", "B", "x", none, false, 0⟩, none⟩⟩,
        ⟨⟨⟨"c", "C", "x", none, false, 0⟩, none⟩⟩] :
          List TrackInQueue)[2 - 1]? = some t
        ∧ removeTrack [⟨⟨⟨"a", "A", "x", none, false, 0⟩, none⟩⟩,
            ⟨⟨⟨"b", "B", "x", none, false, 0⟩, none⟩⟩,
            ⟨⟨⟨"c", "C", "x", none, false, 0⟩, none⟩⟩] 2 =
          (RemoveResult.removed t,
            ([⟨⟨⟨"a", "A", "x", none, false, 0⟩, none⟩⟩,
              ⟨⟨⟨"b", "B", "x", none, false, 0⟩, none⟩⟩,
              ⟨⟨⟨"c", "C", "x", none, false, 0⟩, none⟩⟩] :
                List TrackInQueue).eraseIdx (2 - 1)) :=
  ⟨(remove_validates_one_based_index _ 5).1.mpr (by decide),
    by
      obtain ⟨t, ht, heq, _, _⟩ :=
        (remove_validates_one_based_index
          [⟨⟨⟨"a", "A", "x", none, false, 0⟩, none⟩⟩,
            ⟨⟨⟨"b", "B", "x", none, false, 0⟩, none⟩⟩,
            ⟨⟨⟨"c", "C", "x", none, false, 0⟩, none⟩⟩] 2).2.2.2 (by decide)
      exact ⟨t, ht, heq⟩⟩

/-- C7 (bug evaluation): on the empty queue, `create_queue_embed` hits the
`total_pages - 1` underflow for every requested page — `total_pages` is 0
and no requested page is below it — so the listing fails (debug-build panic)
before its own "Queue is empty." rendering branch can run. -/
theorem queue_embed_underflows_on_empty_queue :
    ∀ page : Nat, createQueueEmbed [] page = none := fun _ => rfl

/-- C8: every session-requiring operation applied with no session replies
directly ("not connected") instead of propagating an error, and leaves all
state unchanged.  For `leave` the audio-server delete (a trivial success
when no player exists) is taken to succeed. -/
theorem missing_session_is_user_facing :
    (∀ (st : VoiceBackends) (g : Nat),
      g ∉ st.songbirdCalls → g ∉ st.lavalinkPlayers →
        leaveCmd st g true = (some Reply.notConnected, st))
    ∧ stopCmd none = (some Reply.notConnected, none)
    ∧ pauseCmd none = (some Reply.notConnected, none)
    ∧ resumeCmd none = (some Reply.notConnected, none)
    ∧ skipCmd none = (some Reply.notConnected, none)
    ∧ listCmd none = (some Reply.notConnected, none)
    ∧ (∀ n, removeCmd none n = (some Reply.notConnected, none))
    ∧ clearCmd none = (some Reply.notConnected, none) := by
  refine ⟨?_, rfl, rfl, rfl, rfl, rfl, fun n => rfl, rfl⟩
  intro st g hsb hlv
  have herase : st.lavalinkPlayers.erase g = st.lavalinkPlayers :=
    List.erase_of_not_mem hlv
  simp [leaveCmd, leaveVoiceChannel, herase, hsb]

/-- Witness for C8: guild 1 with empty registries gets the "not connected"
reply from `leave` with untouched registries, and `queue remove` with no
session replies the same. -/
theorem missing_session_is_user_facing_witness :
    leaveCmd ⟨[], []⟩ 1 true = (some Reply.notConnected, ⟨[], []⟩)
    ∧ removeCmd none 3 = (some Reply.notConnected, none) :=
  ⟨missing_session_is_user_facing.1 ⟨[], []⟩ 1 (by decide) (by decide),
    missing_session_is_user_facing.2.2.2.2.2.2.1 3⟩

/-- C10: a queued or playing track without a canonical URI makes the success
paths of `skip`, `queue list` and `queue remove` panic on the URI `unwrap`
(the `none` reply), so those paths are not total. -/
theorem uri_unwrap_panics_reachable :
    (skipCmd (some ⟨[], some ⟨⟨"id", "t", "a", none, false, 0⟩, none⟩,
        false⟩)).1 = none
    ∧ (listCmd (some ⟨[⟨⟨⟨"id", "t", "a", none, false, 0⟩, none⟩⟩], none,
        false⟩)).1 = none
    ∧ (removeCmd (some ⟨[⟨⟨⟨"id", "t", "a", none, false, 0⟩, none⟩⟩], none,
        false⟩) 1).1 = none :=
  ⟨rfl, rfl, rfl⟩

end Sgrbot
